import Mathlib

/-!
Verification of the operator's reconciliation and admission core against its
natural-language specification.  The Go source is shallowly embedded: pure
computations become Lean functions over `Int` (Go `int64`/`int32` values stay far
from overflow in every reachable branch, with Go's truncating division written
`Int.tdiv`); calls to external collaborators (dynamic client, status updater,
secret issuance, version catalog) are threaded in as explicit result parameters;
fallible paths return `Option`/`Except`; side-effecting call sequences are
recorded as explicit traces.
-/

/-! ## Heap sizing (source: part_001, `getHeapSizeForNode` and its four per-role call sites) -/

/-- 26GB, 26 * 1024 * 1024 * 1024 = 27917287424 (source constant `MaxHeapSize`). -/
def MaxHeapSize : Int := 27917287424

/-- Embeds `getHeapSizeForNode` (part_001 lines 379-388): no more than 50% of
main memory, computed as `(val / 100) * 50` in Go's truncating `int64` division,
then capped at `MaxHeapSize`. -/
def getHeapSizeForNode (val : Int) : Int :=
  let ret := (Int.tdiv val 100) * 50
  if ret > MaxHeapSize then MaxHeapSize else ret

/-- The four node roles whose ensure functions each compute a heap size. -/
inductive NodeRole
  | master
  | data
  | client
  | combined
deriving DecidableEq, Repr

/-- Embeds the per-role heap-size selection, duplicated verbatim in
`EnsureMasterNodes` (lines 65-68), `EnsureDataNodes` (147-150),
`EnsureClientNodes` (219-222) and `EnsureCombinedNode` (293-296):
`heapSize := 134217728; if request, found := ...; found && request.Value() > 0
\x7b heapSize = getHeapSizeForNode(request.Value()) \x7d`.  An absent memory
request is `none`. -/
def roleHeapSize (role : NodeRole) (memoryRequest : Option Int) : Int :=
  match role, memoryRequest with
  | .master, some request => if request > 0 then getHeapSizeForNode request else 134217728
  | .master, none => 134217728
  | .data, some request => if request > 0 then getHeapSizeForNode request else 134217728
  | .data, none => 134217728
  | .client, some request => if request > 0 then getHeapSizeForNode request else 134217728
  | .client, none => 134217728
  | .combined, some request => if request > 0 then getHeapSizeForNode request else 134217728
  | .combined, none => 134217728

/-- The heap formula exactly as the specification words it: `memoryRequest * 50
/ 100` under integer division, capped at `27917287424`, default `134217728`.
Stated for comparison with the formula the code actually computes. -/
def specClaimedHeapBytes (memoryRequest : Option Int) : Int :=
  match memoryRequest with
  | some m => if m > 0 then min (Int.tdiv (m * 50) 100) 27917287424 else 134217728
  | none => 134217728

/-- The amended heap formula: divide by 100 first, then multiply by 50 (the
order the code uses), capped at `27917287424`, default `134217728`. -/
def amendedHeapBytes (memoryRequest : Option Int) : Int :=
  match memoryRequest with
  | some m => if m > 0 then min ((Int.tdiv m 100) * 50) 27917287424 else 134217728
  | none => 134217728

/-! ## Effect verbs and aggregation (source: part_000, `ensureElasticsearchNode` lines 241-245) -/

/-- The `kutil.VerbType` outcomes relevant to this controller. -/
inductive VerbType
  | created
  | patched
  | unchanged
  | deleted
deriving DecidableEq, Repr

/-- Embeds the verb-aggregation logic of `ensureElasticsearchNode` (part_000
lines 225, 241-245): `vt` starts `Unchanged`, becomes `Created` when all three
role verbs are `Created`, else `Patched` when any is `Patched`. -/
def aggregateNodeVerbs (vt1 vt2 vt3 : VerbType) : VerbType :=
  if vt1 = .created ∧ vt2 = .created ∧ vt3 = .created then .created
  else if vt1 = .patched ∨ vt2 = .patched ∨ vt3 = .patched then .patched
  else .unchanged

/-! ## Environment-variable lists (source: part_001) -/

/-- A container environment variable (`corev1.EnvVar`, name/value form). -/
structure EnvVar where
  name : String
  value : String
deriving DecidableEq, Repr

/-- Modelled from the spec: `core_util.UpsertEnvVars` (vendored outside src)
merges one variable with last-writer-wins semantics by name — "User-declared
pod-template environment variables are merged last and take precedence over
every computed variable of the same name (last-writer-wins upsert semantics)".
An existing entry of the same name is replaced in place, otherwise the variable
is appended. -/
def upsertEnvVar (list : List EnvVar) (ev : EnvVar) : List EnvVar :=
  if list.any (fun e => e.name = ev.name) then
    list.map (fun e => if e.name = ev.name then ev else e)
  else
    list ++ [ev]

/-- Modelled from the spec: `core_util.UpsertEnvVars` over a list of new
variables, applied left to right. -/
def UpsertEnvVars (list : List EnvVar) (evs : List EnvVar) : List EnvVar :=
  evs.foldl upsertEnvVar list

/-- Embeds Go `strings.HasPrefix` (byte-prefix test; on the valid UTF-8
strings involved this coincides with character-list prefix). -/
def hasPrefix (s pre : String) : Bool :=
  pre.data.isPrefixOf s.data

/-- Embeds the version-dependent bootstrap upsert duplicated in
`EnsureMasterNodes` (part_001 lines 95-105) and `EnsureCombinedNode` (lines
323-333): version prefix `"1."` upserts `cluster.initial_master_nodes` (value
from `getInitialMasterNodes`, an external lookup passed in here), any other
version upserts `discovery.zen.minimum_master_nodes` with value
`(*replicas/2)+1` in Go's truncating `int32` division. -/
def versionBootstrapUpsert (version : String) (initialMasterNodes : String)
    (replicas : Int) (envList : List EnvVar) : List EnvVar :=
  if hasPrefix version "1." then
    UpsertEnvVars envList [⟨"cluster.initial_master_nodes", initialMasterNodes⟩]
  else
    UpsertEnvVars envList [⟨"discovery.zen.minimum_master_nodes", toString (Int.tdiv replicas 2 + 1)⟩]

/-- Embeds the base environment list of `EnsureMasterNodes` (part_001 lines
73-90). -/
def masterBaseEnvList (heapSize : Int) : List EnvVar :=
  [⟨"ES_JAVA_OPTS", "-Xms" ++ toString heapSize ++ " -Xmx" ++ toString heapSize⟩,
   ⟨"node.ingest", "false"⟩,
   ⟨"node.master", "true"⟩,
   ⟨"node.data", "false"⟩]

/-- Embeds the base environment list of `EnsureCombinedNode` (part_001 lines
301-318). -/
def combinedBaseEnvList (heapSize : Int) : List EnvVar :=
  [⟨"ES_JAVA_OPTS", "-Xms" ++ toString heapSize ++ " -Xmx" ++ toString heapSize⟩,
   ⟨"node.ingest", "true"⟩,
   ⟨"node.master", "true"⟩,
   ⟨"node.data", "true"⟩]

/-- Go `types.Int32P(1)` defaulting: replicas default to 1 when not provided
(part_001 lines 60-63, 288-291). -/
def defaultedReplicas (replicas : Option Int) : Int :=
  match replicas with
  | some r => r
  | none => 1

/-- Embeds the main-container environment construction of `EnsureMasterNodes`
(part_001 lines 45-112): base list, version-dependent bootstrap variable, common
environment (`upsertContainerEnv`, defined outside this excerpt, passed in as
`commonEnv`), then user-provided pod-template variables. -/
def masterNodeEnvList (version : String) (memoryRequest : Option Int)
    (replicas : Option Int) (initialMasterNodes : String)
    (commonEnv userEnv : List EnvVar) : List EnvVar :=
  let heapSize := roleHeapSize .master memoryRequest
  let envList := masterBaseEnvList heapSize
  let envList := versionBootstrapUpsert version initialMasterNodes (defaultedReplicas replicas) envList
  let envList := UpsertEnvVars envList commonEnv
  UpsertEnvVars envList userEnv

/-- Embeds the main-container environment construction of `EnsureCombinedNode`
(part_001 lines 276-340), analogous to the master case with all three role
flags set to true. -/
def combinedNodeEnvList (version : String) (memoryRequest : Option Int)
    (replicas : Option Int) (initialMasterNodes : String)
    (commonEnv userEnv : List EnvVar) : List EnvVar :=
  let heapSize := roleHeapSize .combined memoryRequest
  let envList := combinedBaseEnvList heapSize
  let envList := versionBootstrapUpsert version initialMasterNodes (defaultedReplicas replicas) envList
  let envList := UpsertEnvVars envList commonEnv
  UpsertEnvVars envList userEnv

/-! ### Helper lemmas about upserts -/

theorem mem_upsertEnvVar_of_name_ne (l : List EnvVar) (v e : EnvVar)
    (he : e ∈ l) (h : v.name ≠ e.name) : e ∈ upsertEnvVar l v := by
  unfold upsertEnvVar
  split
  · refine List.mem_map.mpr ⟨e, he, ?_⟩
    rw [if_neg (fun hc => h hc.symm)]
  · exact List.mem_append_left _ he

theorem mem_UpsertEnvVars_of_name_notin (l evs : List EnvVar) (e : EnvVar)
    (he : e ∈ l) (h : ∀ v ∈ evs, v.name ≠ e.name) : e ∈ UpsertEnvVars l evs := by
  induction evs generalizing l with
  | nil => exact he
  | cons v vs ih =>
    exact ih (upsertEnvVar l v)
      (mem_upsertEnvVar_of_name_ne l v e he (h v (List.mem_cons_self v vs)))
      (fun w hw => h w (List.mem_cons_of_mem v hw))

theorem name_notin_upsertEnvVar (l : List EnvVar) (v : EnvVar) (n : String)
    (hl : ∀ e ∈ l, e.name ≠ n) (hv : v.name ≠ n) :
    ∀ e ∈ upsertEnvVar l v, e.name ≠ n := by
  intro e he
  unfold upsertEnvVar at he
  split at he
  · obtain ⟨w, hw, hwe⟩ := List.mem_map.mp he
    by_cases hc : w.name = v.name
    · simpa [hc, ← hwe] using hv
    · simpa [hc, ← hwe] using hl w hw
  · rcases List.mem_append.mp he with h | h
    · exact hl e h
    · simpa [List.mem_singleton.mp h] using hv

theorem name_notin_UpsertEnvVars (l evs : List EnvVar) (n : String)
    (hl : ∀ e ∈ l, e.name ≠ n) (hevs : ∀ v ∈ evs, v.name ≠ n) :
    ∀ e ∈ UpsertEnvVars l evs, e.name ≠ n := by
  induction evs generalizing l with
  | nil => exact hl
  | cons v vs ih =>
    exact ih (upsertEnvVar l v)
      (name_notin_upsertEnvVar l v n hl (hevs v (List.mem_cons_self v vs)))
      (fun w hw => hevs w (List.mem_cons_of_mem v hw))

/-! ## Theorems for heap sizing and verb aggregation -/

/-- C1 counterexample: the claim says the heap for a positive memory request
equals `memoryRequest * 50 / 100` under integer division, but at
`memoryRequest = 150` the code yields `(150 / 100) * 50 = 50` while the
claimed formula yields `150 * 50 / 100 = 75`. -/
theorem heap_formula_claim_counterexample :
    roleHeapSize .master (some 150) = 50 ∧ specClaimedHeapBytes (some 150) = 75 ∧
      roleHeapSize .master (some 150) ≠ specClaimedHeapBytes (some 150) := by
  refine ⟨by decide, by decide, by decide⟩

/-- C1 (amended): for every node role, the heap size is `134217728` when the
memory request is absent or not greater than zero, and otherwise equals
`(memoryRequest / 100) * 50` (dividing by 100 first, truncating integer
division), capped at `27917287424`; in particular `heap(10^10) = 5*10^9` and
`heap(10^11) = 27917287424`. -/
theorem heap_size_amended_formula :
    (∀ (role : NodeRole) (r : Option Int), roleHeapSize role r = amendedHeapBytes r) ∧
    (∀ role : NodeRole, roleHeapSize role (some 10000000000) = 5000000000) ∧
    (∀ role : NodeRole, roleHeapSize role (some 100000000000) = 27917287424) := by
  refine ⟨fun role r => ?_, fun role => by cases role <;> decide,
    fun role => by cases role <;> decide⟩
  have formula : ∀ m : Int, 0 < m →
      getHeapSizeForNode m = min ((Int.tdiv m 100) * 50) 27917287424 := by
    intro m _
    have hret : getHeapSizeForNode m =
        if (Int.tdiv m 100) * 50 > MaxHeapSize then MaxHeapSize
        else (Int.tdiv m 100) * 50 := rfl
    rw [hret]
    unfold MaxHeapSize
    split
    · rename_i hcap
      exact (min_eq_right hcap.le).symm
    · rename_i hcap
      exact (min_eq_left (not_lt.mp hcap)).symm
  cases role <;> rcases r with _ | m <;>
    simp only [roleHeapSize, amendedHeapBytes] <;>
    split <;> first | rfl | (rename_i hm; exact formula m hm)

/-- C3: the aggregated verb over the three per-role ensure outcomes is
`Created` if and only if all three are `Created`; otherwise it is `Patched`
exactly when at least one is `Patched`; otherwise it is `Unchanged`. -/
theorem node_verb_aggregation (vt1 vt2 vt3 : VerbType) :
    (aggregateNodeVerbs vt1 vt2 vt3 = .created ↔
       (vt1 = .created ∧ vt2 = .created ∧ vt3 = .created)) ∧
    (aggregateNodeVerbs vt1 vt2 vt3 = .patched ↔
       (¬(vt1 = .created ∧ vt2 = .created ∧ vt3 = .created) ∧
         (vt1 = .patched ∨ vt2 = .patched ∨ vt3 = .patched))) ∧
    (aggregateNodeVerbs vt1 vt2 vt3 = .unchanged ↔
       (¬(vt1 = .created ∧ vt2 = .created ∧ vt3 = .created) ∧
         ¬(vt1 = .patched ∨ vt2 = .patched ∨ vt3 = .patched))) := by
  cases vt1 <;> cases vt2 <;> cases vt3 <;> decide

/-! ### Bootstrap environment variable (C8) -/

theorem tdiv_two_eq_fdiv_two (r : Int) (h : 0 ≤ r) : Int.tdiv r 2 = Int.fdiv r 2 := by
  match r, h with
  | Int.ofNat 0, _ => rfl
  | Int.ofNat (n + 1), _ => rfl

theorem bootstrap_env_after_upserts (version initialMasterNodes : String) (replicas : Int)
    (base commonEnv userEnv : List EnvVar)
    (hbase : ∀ e ∈ base, e.name ≠ "cluster.initial_master_nodes" ∧
       e.name ≠ "discovery.zen.minimum_master_nodes")
    (hcommon : ∀ e ∈ commonEnv, e.name ≠ "cluster.initial_master_nodes" ∧
       e.name ≠ "discovery.zen.minimum_master_nodes")
    (huser : ∀ e ∈ userEnv, e.name ≠ "cluster.initial_master_nodes" ∧
       e.name ≠ "discovery.zen.minimum_master_nodes") :
    (hasPrefix version "1." = true →
      ((⟨"cluster.initial_master_nodes", initialMasterNodes⟩ : EnvVar) ∈
          UpsertEnvVars (UpsertEnvVars
            (versionBootstrapUpsert version initialMasterNodes replicas base) commonEnv) userEnv ∧
        ∀ e ∈ UpsertEnvVars (UpsertEnvVars
            (versionBootstrapUpsert version initialMasterNodes replicas base) commonEnv) userEnv,
          e.name ≠ "discovery.zen.minimum_master_nodes")) ∧
    (hasPrefix version "1." = false →
      ((⟨"discovery.zen.minimum_master_nodes", toString (Int.tdiv replicas 2 + 1)⟩ : EnvVar) ∈
          UpsertEnvVars (UpsertEnvVars
            (versionBootstrapUpsert version initialMasterNodes replicas base) commonEnv) userEnv ∧
        ∀ e ∈ UpsertEnvVars (UpsertEnvVars
            (versionBootstrapUpsert version initialMasterNodes replicas base) commonEnv) userEnv,
          e.name ≠ "cluster.initial_master_nodes")) := by
  have hanyInit : base.any (fun e => e.name = "cluster.initial_master_nodes") = false := by
    rw [List.any_eq_false]
    intro e he
    simpa using (hbase e he).1
  have hanyMin : base.any (fun e => e.name = "discovery.zen.minimum_master_nodes") = false := by
    rw [List.any_eq_false]
    intro e he
    simpa using (hbase e he).2
  constructor
  · intro hv
    have hupsert : versionBootstrapUpsert version initialMasterNodes replicas base =
        base ++ [⟨"cluster.initial_master_nodes", initialMasterNodes⟩] := by
      simp only [versionBootstrapUpsert, hv, if_true, UpsertEnvVars, List.foldl,
        upsertEnvVar, hanyInit]
      simp
    constructor
    · refine mem_UpsertEnvVars_of_name_notin _ _ _
        (mem_UpsertEnvVars_of_name_notin _ _ _ ?_ (fun v hvm => (hcommon v hvm).1))
        (fun v hvm => (huser v hvm).1)
      rw [hupsert]
      exact List.mem_append_right _ (List.mem_singleton.mpr rfl)
    · refine name_notin_UpsertEnvVars _ _ _
        (name_notin_UpsertEnvVars _ _ _ ?_ (fun v hvm => (hcommon v hvm).2))
        (fun v hvm => (huser v hvm).2)
      rw [hupsert]
      intro e he
      rcases List.mem_append.mp he with h | h
      · exact (hbase e h).2
      · rw [List.mem_singleton.mp h]
        simp
  · intro hv
    have hupsert : versionBootstrapUpsert version initialMasterNodes replicas base =
        base ++ [⟨"discovery.zen.minimum_master_nodes", toString (Int.tdiv replicas 2 + 1)⟩] := by
      simp only [versionBootstrapUpsert, hv, if_false, UpsertEnvVars, List.foldl,
        upsertEnvVar, hanyMin]
      simp
    constructor
    · refine mem_UpsertEnvVars_of_name_notin _ _ _
        (mem_UpsertEnvVars_of_name_notin _ _ _ ?_ (fun v hvm => (hcommon v hvm).2))
        (fun v hvm => (huser v hvm).2)
      rw [hupsert]
      exact List.mem_append_right _ (List.mem_singleton.mpr rfl)
    · refine name_notin_UpsertEnvVars _ _ _
        (name_notin_UpsertEnvVars _ _ _ ?_ (fun v hvm => (hcommon v hvm).1))
        (fun v hvm => (huser v hvm).1)
      rw [hupsert]
      intro e he
      rcases List.mem_append.mp he with h | h
      · exact (hbase e h).1
      · rw [List.mem_singleton.mp h]
        simp

theorem masterBaseEnvList_names (heapSize : Int) :
    ∀ e ∈ masterBaseEnvList heapSize, e.name ≠ "cluster.initial_master_nodes" ∧
      e.name ≠ "discovery.zen.minimum_master_nodes" := by
  intro e he
  simp only [masterBaseEnvList, List.mem_cons, List.not_mem_nil, or_false] at he
  rcases he with rfl | rfl | rfl | rfl <;> exact ⟨by simp, by simp⟩

theorem combinedBaseEnvList_names (heapSize : Int) :
    ∀ e ∈ combinedBaseEnvList heapSize, e.name ≠ "cluster.initial_master_nodes" ∧
      e.name ≠ "discovery.zen.minimum_master_nodes" := by
  intro e he
  simp only [combinedBaseEnvList, List.mem_cons, List.not_mem_nil, or_false] at he
  rcases he with rfl | rfl | rfl | rfl <;> exact ⟨by simp, by simp⟩

/-- C8: in a master or combined node build, when the managed-software version
string starts with `"1."` the environment list contains
`cluster.initial_master_nodes` (and no minimum-master entry); for any other
version it instead contains `discovery.zen.minimum_master_nodes` with value
`floor(replicas/2) + 1` (and no initial-master entry).  The common and
user-provided environment lists are assumed not to redefine these two
bootstrap names. -/
theorem bootstrap_env_depends_on_version
    (version : String) (memoryRequest : Option Int) (replicas : Option Int)
    (initialMasterNodes : String) (commonEnv userEnv : List EnvVar)
    (hreps : 0 ≤ defaultedReplicas replicas)
    (hcommon : ∀ e ∈ commonEnv, e.name ≠ "cluster.initial_master_nodes" ∧
       e.name ≠ "discovery.zen.minimum_master_nodes")
    (huser : ∀ e ∈ userEnv, e.name ≠ "cluster.initial_master_nodes" ∧
       e.name ≠ "discovery.zen.minimum_master_nodes") :
    (hasPrefix version "1." = true →
      ((⟨"cluster.initial_master_nodes", initialMasterNodes⟩ : EnvVar) ∈
          masterNodeEnvList version memoryRequest replicas initialMasterNodes commonEnv userEnv ∧
        (⟨"cluster.initial_master_nodes", initialMasterNodes⟩ : EnvVar) ∈
          combinedNodeEnvList version memoryRequest replicas initialMasterNodes commonEnv userEnv)) ∧
    (hasPrefix version "1." = false →
      ((⟨"discovery.zen.minimum_master_nodes",
            toString (Int.fdiv (defaultedReplicas replicas) 2 + 1)⟩ : EnvVar) ∈
          masterNodeEnvList version memoryRequest replicas initialMasterNodes commonEnv userEnv ∧
        (⟨"discovery.zen.minimum_master_nodes",
            toString (Int.fdiv (defaultedReplicas replicas) 2 + 1)⟩ : EnvVar) ∈
          combinedNodeEnvList version memoryRequest replicas initialMasterNodes commonEnv userEnv ∧
        (∀ e ∈ masterNodeEnvList version memoryRequest replicas initialMasterNodes commonEnv userEnv,
          e.name ≠ "cluster.initial_master_nodes"))) := by
  have hmaster := bootstrap_env_after_upserts version initialMasterNodes
    (defaultedReplicas replicas) (masterBaseEnvList (roleHeapSize .master memoryRequest))
    commonEnv userEnv (masterBaseEnvList_names _) hcommon huser
  have hcombined := bootstrap_env_after_upserts version initialMasterNodes
    (defaultedReplicas replicas) (combinedBaseEnvList (roleHeapSize .combined memoryRequest))
    commonEnv userEnv (combinedBaseEnvList_names _) hcommon huser
  rw [tdiv_two_eq_fdiv_two _ hreps] at hmaster hcombined
  exact ⟨fun hv => ⟨(hmaster.1 hv).1, (hcombined.1 hv).1⟩,
    fun hv => ⟨(hmaster.2 hv).1, (hcombined.2 hv).1, (hmaster.2 hv).2⟩⟩

/-- C8 witness: a combined-node build with 3 replicas and version "0.9.0"
(not prefixed "1.") carries `discovery.zen.minimum_master_nodes = "2"`. -/
theorem bootstrap_env_depends_on_version_witness :
    (⟨"discovery.zen.minimum_master_nodes", "2"⟩ : EnvVar) ∈
      combinedNodeEnvList "0.9.0" (some 1073741824) (some 3) "" [] [] := by
  have h := (bootstrap_env_depends_on_version "0.9.0" (some 1073741824) (some 3) "" [] []
    (by decide) (by intro e he; cases he) (by intro e he; cases he)).2 (by decide)
  exact h.2.1

/-! ## Termination policy engine (source: part_000, `terminate`,
`setOwnerReferenceToOffshoots`, `removeOwnerReferenceFromOffshoots`) -/

/-- The `api.TerminationPolicy` values (string-typed in Go; `unspecified` is the
empty string). -/
inductive TerminationPolicy
  | doNotTerminate
  | pause
  | halt
  | delete
  | wipeOut
  | unspecified
deriving DecidableEq, Repr

/-- One call made by the termination path against the dynamic client (or the
monitoring subsystem).  `wipeOutDatabase` is the external
`c.wipeOutDatabase(meta, secrets, owner)` helper, which places
deletion-ownership claims on the named secrets. -/
inductive OffshootCall
  | removeOwnerReferenceForSelector (resource : String)
  | removeOwnerReferenceForItems (resource : String) (items : List String)
  | wipeOutDatabase (secrets : List String)
  | ensureOwnerReferenceForSelector (resource : String)
  | deleteMonitor
deriving DecidableEq, Repr

/-- Results of the external calls the termination path makes. -/
structure TerminateEnv where
  removeOwnerSelectorPVCResult : Except String Unit
  removeOwnerItemsSecretsResult : Except String Unit
  wipeOutDatabaseResult : Except String Unit
  ensureOwnerSelectorPVCResult : Except String Unit
  deleteMonitorResult : Except String Unit

/-- Embeds `setOwnerReferenceToOffshoots` (part_000 lines 314-343): under
`WipeOut`, wipe out the database (snapshots and secrets); otherwise remove the
ownership reference from the named secrets; in both cases then claim ownership
of the persistent-volume-claim selector for deletion.  Returns the trace of
calls made and the propagated error, stopping at the first failure. -/
def setOwnerReferenceToOffshoots (policy : TerminationPolicy) (secrets : List String)
    (env : TerminateEnv) : List OffshootCall × Option String :=
  if policy = .wipeOut then
    match env.wipeOutDatabaseResult with
    | .error e => ([.wipeOutDatabase secrets], some ("error in wiping out database." ++ ": " ++ e))
    | .ok _ =>
      match env.ensureOwnerSelectorPVCResult with
      | .error e => ([.wipeOutDatabase secrets,
          .ensureOwnerReferenceForSelector "persistentvolumeclaims"], some e)
      | .ok _ => ([.wipeOutDatabase secrets,
          .ensureOwnerReferenceForSelector "persistentvolumeclaims"], none)
  else
    match env.removeOwnerItemsSecretsResult with
    | .error e => ([.removeOwnerReferenceForItems "secrets" secrets], some e)
    | .ok _ =>
      match env.ensureOwnerSelectorPVCResult with
      | .error e => ([.removeOwnerReferenceForItems "secrets" secrets,
          .ensureOwnerReferenceForSelector "persistentvolumeclaims"], some e)
      | .ok _ => ([.removeOwnerReferenceForItems "secrets" secrets,
          .ensureOwnerReferenceForSelector "persistentvolumeclaims"], none)

/-- Embeds `removeOwnerReferenceFromOffshoots` (part_000 lines 345-368): remove
ownership references from the persistent-volume-claim selector and then from the
named secrets, so garbage collection deletes nothing dependent. -/
def removeOwnerReferenceFromOffshoots (secrets : List String)
    (env : TerminateEnv) : List OffshootCall × Option String :=
  match env.removeOwnerSelectorPVCResult with
  | .error e => ([.removeOwnerReferenceForSelector "persistentvolumeclaims"], some e)
  | .ok _ =>
    match env.removeOwnerItemsSecretsResult with
    | .error e => ([.removeOwnerReferenceForSelector "persistentvolumeclaims",
        .removeOwnerReferenceForItems "secrets" secrets], some e)
    | .ok _ => ([.removeOwnerReferenceForSelector "persistentvolumeclaims",
        .removeOwnerReferenceForItems "secrets" secrets], none)

/-- Embeds `terminate` (part_000 lines 287-312): `Halt`/`Pause` keep PVCs and
secrets intact via ownership removal; every other policy goes through
`setOwnerReferenceToOffshoots`; when a monitor is configured, `deleteMonitor`
is attempted afterwards and its failure is logged, never propagated. -/
def terminate (policy : TerminationPolicy) (secrets : List String) (hasMonitor : Bool)
    (env : TerminateEnv) : List OffshootCall × Option String :=
  let step :=
    if policy = .halt ∨ policy = .pause then removeOwnerReferenceFromOffshoots secrets env
    else setOwnerReferenceToOffshoots policy secrets env
  match step.2 with
  | some e => (step.1, some e)
  | none =>
    if hasMonitor then
      match env.deleteMonitorResult with
      | .error _ => (step.1 ++ [.deleteMonitor], none)
      | .ok _ => (step.1 ++ [.deleteMonitor], none)
    else (step.1, none)

/-! ## Halt path (source: part_000, `halt` lines 259-285) -/

/-- The `api.DatabasePhase` values this excerpt stamps. -/
inductive DatabasePhase
  | creating
  | initializing
  | running
  | halted
deriving DecidableEq, Repr

/-- Results of the external calls the halt path makes. -/
structure HaltEnv where
  haltDatabaseResult : Except String Unit
  waitUntilPausedResult : Except String Unit
  updateStatusResult : Except String Unit

/-- Embeds `halt` (part_000 lines 259-285): a halt request (`spec.halted` set)
under a termination policy other than `Halt` is rejected; otherwise the
workload is quiesced (`haltDatabase`), quiescence is awaited
(`waitUntilPaused`), and the phase is stamped `Halted` via a status update.
Returns the error, if any, and the phase stamped, if any. -/
def halt (halted : Bool) (policy : TerminationPolicy) (env : HaltEnv) :
    Option String × Option DatabasePhase :=
  if halted = true ∧ policy ≠ .halt then
    (some "cannot halt db. spec.terminationPolicy is not Halt", none)
  else
    match env.haltDatabaseResult with
    | .error e => (some e, none)
    | .ok _ =>
      match env.waitUntilPausedResult with
      | .error e => (some e, none)
      | .ok _ =>
        match env.updateStatusResult with
        | .error e => (some e, none)
        | .ok _ => (none, some .halted)

/-! ## Node convergence pass (source: part_000, `ensureElasticsearchNode` lines 192-257) -/

/-- One step taken by a node-convergence pass. -/
inductive EnsureStep
  | ensureCertSecrets
  | ensureDatabaseSecret
  | enqueueAfter (seconds : Nat)
  | ensureDefaultConfig
  | ensureDatabaseRBAC
  | ensureClientNodes
  | ensureMasterNodes
  | ensureDataNodes
  | ensureCombinedNode
  | sleepSeconds (seconds : Nat)
deriving DecidableEq, Repr

/-- Results of the external calls a node-convergence pass makes. -/
structure EnsureNodeEnv where
  newDistributionResult : Except String Unit
  ensureCertSecretsResult : Except String Unit
  ensureDatabaseSecretResult : Except String Unit
  isAllRequiredSecretAvailable : Bool
  ensureDefaultConfigResult : Except String Unit
  ensureDatabaseRBACResult : Except String Unit
  ensureClientNodesResult : Except String VerbType
  ensureMasterNodesResult : Except String VerbType
  ensureDataNodesResult : Except String VerbType
  ensureCombinedNodeResult : Except String VerbType

/-- The observable outcome of one node-convergence pass: whether a non-nil
object was returned, the effect verb, the error, and the trace of steps taken
(a delayed requeue appears as `enqueueAfter`). -/
structure EnsureNodeOutcome where
  objectReturned : Bool
  verb : VerbType
  err : Option String
  steps : List EnsureStep
deriving DecidableEq, Repr

/-- Embeds `ensureElasticsearchNode` (part_000 lines 192-257): build the
distribution handle, ensure certificate and database-credential secrets, and if
the required secrets are not all available, enqueue a retry after 5 seconds and
return `(nil, Unchanged, nil)`; otherwise ensure default config and RBAC, then
converge the three discrete roles (aggregating their verbs) or the single
combined node, and finally sleep 30 seconds for cluster formation. -/
def ensureElasticsearchNode (hasTopology : Bool) (env : EnsureNodeEnv) : EnsureNodeOutcome :=
  match env.newDistributionResult with
  | .error e => ⟨false, .unchanged, some ("failed to get elasticsearch distribution" ++ ": " ++ e), []⟩
  | .ok _ =>
  match env.ensureCertSecretsResult with
  | .error e => ⟨false, .unchanged, some ("failed to ensure certificates secret" ++ ": " ++ e),
      [.ensureCertSecrets]⟩
  | .ok _ =>
  match env.ensureDatabaseSecretResult with
  | .error e => ⟨false, .unchanged, some ("failed to ensure database credential secret" ++ ": " ++ e),
      [.ensureCertSecrets, .ensureDatabaseSecret]⟩
  | .ok _ =>
  if !env.isAllRequiredSecretAvailable then
    ⟨false, .unchanged, none, [.ensureCertSecrets, .ensureDatabaseSecret, .enqueueAfter 5]⟩
  else
  match env.ensureDefaultConfigResult with
  | .error e => ⟨false, .unchanged,
      some ("failed to ensure default configuration for elasticsearch" ++ ": " ++ e),
      [.ensureCertSecrets, .ensureDatabaseSecret, .ensureDefaultConfig]⟩
  | .ok _ =>
  match env.ensureDatabaseRBACResult with
  | .error e => ⟨false, .unchanged, some ("failed to create RBAC role or roleBinding" ++ ": " ++ e),
      [.ensureCertSecrets, .ensureDatabaseSecret, .ensureDefaultConfig, .ensureDatabaseRBAC]⟩
  | .ok _ =>
  if hasTopology then
    match env.ensureClientNodesResult with
    | .error e => ⟨false, .unchanged, some e,
        [.ensureCertSecrets, .ensureDatabaseSecret, .ensureDefaultConfig, .ensureDatabaseRBAC,
         .ensureClientNodes]⟩
    | .ok vt1 =>
    match env.ensureMasterNodesResult with
    | .error e => ⟨false, .unchanged, some e,
        [.ensureCertSecrets, .ensureDatabaseSecret, .ensureDefaultConfig, .ensureDatabaseRBAC,
         .ensureClientNodes, .ensureMasterNodes]⟩
    | .ok vt2 =>
    match env.ensureDataNodesResult with
    | .error e => ⟨false, .unchanged, some e,
        [.ensureCertSecrets, .ensureDatabaseSecret, .ensureDefaultConfig, .ensureDatabaseRBAC,
         .ensureClientNodes, .ensureMasterNodes, .ensureDataNodes]⟩
    | .ok vt3 => ⟨true, aggregateNodeVerbs vt1 vt2 vt3, none,
        [.ensureCertSecrets, .ensureDatabaseSecret, .ensureDefaultConfig, .ensureDatabaseRBAC,
         .ensureClientNodes, .ensureMasterNodes, .ensureDataNodes, .sleepSeconds 30]⟩
  else
    match env.ensureCombinedNodeResult with
    | .error e => ⟨false, .unchanged, some e,
        [.ensureCertSecrets, .ensureDatabaseSecret, .ensureDefaultConfig, .ensureDatabaseRBAC,
         .ensureCombinedNode]⟩
    | .ok vt => ⟨true, vt, none,
        [.ensureCertSecrets, .ensureDatabaseSecret, .ensureDefaultConfig, .ensureDatabaseRBAC,
         .ensureCombinedNode, .sleepSeconds 30]⟩

/-! ## Theorems for termination, halt and the convergence pass -/

/-- C2: termination branches strictly on the policy — `WipeOut` places
deletion-ownership claims on both the named secrets (`wipeOutDatabase`) and the
volume-claim selector; any non-`Halt`/non-`Pause`/non-`WipeOut` policy (such as
`Delete`) first removes ownership from the named secrets and then places
deletion-ownership on the volume selector only; `Halt` and `Pause` remove
ownership references from both the volume selector and the named secrets,
placing no deletion-ownership claim at all. -/
theorem terminate_ownership_by_policy (policy : TerminationPolicy) (secrets : List String)
    (hasMonitor : Bool) (env : TerminateEnv)
    (h1 : env.removeOwnerSelectorPVCResult = .ok ())
    (h2 : env.removeOwnerItemsSecretsResult = .ok ())
    (h3 : env.wipeOutDatabaseResult = .ok ())
    (h4 : env.ensureOwnerSelectorPVCResult = .ok ()) :
    (policy = .wipeOut →
      (terminate policy secrets hasMonitor env).1 =
        [.wipeOutDatabase secrets, .ensureOwnerReferenceForSelector "persistentvolumeclaims"] ++
          (if hasMonitor then [.deleteMonitor] else [])) ∧
    (policy ≠ .halt → policy ≠ .pause → policy ≠ .wipeOut →
      (terminate policy secrets hasMonitor env).1 =
        [.removeOwnerReferenceForItems "secrets" secrets,
         .ensureOwnerReferenceForSelector "persistentvolumeclaims"] ++
          (if hasMonitor then [.deleteMonitor] else [])) ∧
    (policy = .halt ∨ policy = .pause →
      (terminate policy secrets hasMonitor env).1 =
        [.removeOwnerReferenceForSelector "persistentvolumeclaims",
         .removeOwnerReferenceForItems "secrets" secrets] ++
          (if hasMonitor then [.deleteMonitor] else [])) := by
  cases hdm : env.deleteMonitorResult <;>
    cases policy <;> cases hasMonitor <;>
      simp [terminate, setOwnerReferenceToOffshoots, removeOwnerReferenceFromOffshoots,
        h1, h2, h3, h4, hdm]

/-- An environment in which every external termination call succeeds. -/
def terminateEnvAllOk : TerminateEnv :=
  ⟨.ok (), .ok (), .ok (), .ok (), .ok ()⟩

/-- C2 witness: wiping out with one named secret claims both the secret and the
volume selector. -/
theorem terminate_ownership_by_policy_witness :
    (terminate .wipeOut ["db-auth"] false terminateEnvAllOk).1 =
      [.wipeOutDatabase ["db-auth"], .ensureOwnerReferenceForSelector "persistentvolumeclaims"] := by
  simpa using
    (terminate_ownership_by_policy .wipeOut ["db-auth"] false terminateEnvAllOk
      rfl rfl rfl rfl).1 rfl

/-- C9: when a monitor is configured and the primary ownership-transfer steps
succeed, a failing monitoring teardown is swallowed — `terminate` still
returns no error. -/
theorem monitor_teardown_failure_swallowed (policy : TerminationPolicy)
    (secrets : List String) (env : TerminateEnv) (e : String)
    (h1 : env.removeOwnerSelectorPVCResult = .ok ())
    (h2 : env.removeOwnerItemsSecretsResult = .ok ())
    (h3 : env.wipeOutDatabaseResult = .ok ())
    (h4 : env.ensureOwnerSelectorPVCResult = .ok ())
    (hm : env.deleteMonitorResult = .error e) :
    (terminate policy secrets true env).2 = none := by
  cases policy <;>
    simp [terminate, setOwnerReferenceToOffshoots, removeOwnerReferenceFromOffshoots,
      h1, h2, h3, h4, hm]

/-- An environment in which the ownership calls succeed but monitoring teardown
fails. -/
def terminateEnvMonitorFail : TerminateEnv :=
  ⟨.ok (), .ok (), .ok (), .ok (), .error "prometheus teardown failed"⟩

/-- C9 witness: the monitoring-teardown failure does not surface. -/
theorem monitor_teardown_failure_swallowed_witness :
    (terminate .delete ["db-auth"] true terminateEnvMonitorFail).2 = none :=
  monitor_teardown_failure_swallowed .delete ["db-auth"] terminateEnvMonitorFail
    "prometheus teardown failed" rfl rfl rfl rfl rfl

/-- C5: a halt request (`spec.halted` set) on an object whose termination
policy is not `Halt` is rejected with an error, and no phase is stamped —
in particular the phase is not stamped `Halted`. -/
theorem halt_rejected_when_policy_not_halt (policy : TerminationPolicy) (env : HaltEnv)
    (hp : policy ≠ .halt) :
    (halt true policy env).1 = some "cannot halt db. spec.terminationPolicy is not Halt" ∧
      (halt true policy env).2 = none := by
  unfold halt
  simp [hp]

/-- C5 witness: halting under the `Delete` policy is rejected and stamps
nothing. -/
theorem halt_rejected_when_policy_not_halt_witness :
    (halt true .delete ⟨.ok (), .ok (), .ok ()⟩).2 = none :=
  (halt_rejected_when_policy_not_halt .delete ⟨.ok (), .ok (), .ok ()⟩ (by decide)).2

/-- C6: when the secret-ensuring steps succeed but the required secrets are not
all available, the convergence pass returns no error, reports the neutral verb
`Unchanged`, returns no object, schedules a retry after the fixed 5-second
delay, and performs no further convergence step in that pass. -/
theorem secrets_unavailable_requeues (hasTopology : Bool) (env : EnsureNodeEnv)
    (h1 : env.newDistributionResult = .ok ())
    (h2 : env.ensureCertSecretsResult = .ok ())
    (h3 : env.ensureDatabaseSecretResult = .ok ())
    (h4 : env.isAllRequiredSecretAvailable = false) :
    ensureElasticsearchNode hasTopology env =
      ⟨false, .unchanged, none, [.ensureCertSecrets, .ensureDatabaseSecret, .enqueueAfter 5]⟩ := by
  unfold ensureElasticsearchNode
  rw [h1, h2, h3, h4]
  rfl

/-- An environment in which the secrets are ensured but not yet issued. -/
def ensureEnvSecretsPending : EnsureNodeEnv :=
  ⟨.ok (), .ok (), .ok (), false, .ok (), .ok (), .ok .created, .ok .created, .ok .created, .ok .created⟩

/-- C6 witness: a discrete-topology pass with pending secrets requeues after 5
seconds and does nothing else. -/
theorem secrets_unavailable_requeues_witness :
    ensureElasticsearchNode true ensureEnvSecretsPending =
      ⟨false, .unchanged, none, [.ensureCertSecrets, .ensureDatabaseSecret, .enqueueAfter 5]⟩ :=
  secrets_unavailable_requeues true ensureEnvSecretsPending rfl rfl rfl rfl

/-! ## Postgres admission validator (source: vendor validator.go) -/

/-- The `api.StorageType` values (string-typed in Go; `unspecified` is the
empty string, `other` any different non-empty value). -/
inductive StorageType
  | durable
  | ephemeral
  | unspecified
  | other (s : String)
deriving DecidableEq, Repr

/-- A backup/WAL storage location: which of the five providers are configured
(`S3`, `GCS`, `Azure`, `Swift`, `Local` pointers in Go). -/
structure WALSourceSpec where
  s3 : Bool
  gcs : Bool
  azure : Bool
  swift : Bool
  localProvider : Bool
deriving DecidableEq, Repr

/-- `spec.archiver`: an optional storage location. -/
structure ArchiverSpec where
  storage : Option WALSourceSpec
deriving DecidableEq, Repr

/-- `spec.init`: an optional Stash restore session and an optional WAL source. -/
structure InitSpec where
  stashRestoreSession : Option String
  postgresWAL : Option WALSourceSpec
deriving DecidableEq, Repr

/-- `spec.leaderElection` timing configuration (int32 seconds in Go). -/
structure LeaderElectionConfig where
  leaseDurationSeconds : Int
  renewDeadlineSeconds : Int
  retryPeriodSeconds : Int
deriving DecidableEq, Repr

/-- The Postgres spec fields this validator and the update precondition read.
`storage` and `monitor` are opaque subtrees compared only for equality. -/
structure PostgresSpec where
  version : String
  replicas : Option Int
  podEnv : List EnvVar
  storageType : StorageType
  storage : Option String
  standbyMode : Option String
  streamingMode : Option String
  archiver : Option ArchiverSpec
  databaseSecret : Option String
  leaderElection : Option LeaderElectionConfig
  init : Option InitSpec
  terminationPolicy : TerminationPolicy
  monitor : Option String
deriving DecidableEq, Repr

/-- Modelled from the spec: the standby/streaming mode constants of the
vendored `api` package (two canonical values plus deprecated aliases each);
only their distinctness matters here. -/
def HotPostgresStandbyMode : String := "Hot"

def WarmPostgresStandbyMode : String := "Warm"

def DeprecatedHotStandby : String := "hot"

def DeprecatedWarmStandby : String := "warm"

def AsynchronousPostgresStreamingMode : String := "Asynchronous"

def SynchronousPostgresStreamingMode : String := "Synchronous"

def DeprecatedAsynchronousStreaming : String := "asynchronous"

/-- The deny-list of credential environment variables the platform injects
itself (validator.go lines 54-57). -/
def forbiddenEnvVars : List String :=
  ["POSTGRES_PASSWORD", "POSTGRES_USER"]

/-- Every distinct rejection the validator can produce, one constructor per Go
`return`-an-error site; externally produced errors carry their message. -/
inductive PostgresError
  | versionMissing
  | versionLookupFailed (msg : String)
  | invalidReplicas
  | forbiddenEnvVarUsed
  | storageTypeMissing
  | storageTypeInvalid
  | storageInvalid (msg : String)
  | invalidStandbyMode
  | invalidStreamingMode
  | noStorageProviderConfigured
  | secretLookupFailed (msg : String)
  | deprecatedVersion
  | invalidVersionSpecs (msg : String)
  | leaseDurationNotGreaterThanRenewDeadline
  | renewDeadlineNotGreaterThanRetryJitter
  | leaseDurationNotPositive
  | renewDeadlineNotPositive
  | retryPeriodNotPositive
  | stashRestoreWithoutDatabaseSecret
  | noWALStorageProviderConfigured
  | terminationPolicyMissing
  | ephemeralHaltConflict
  | invalidMonitorSpec (msg : String)
deriving DecidableEq, Repr

/-- Results of the external lookups and delegated validations
`ValidatePostgres` performs. -/
structure ValidateEnv where
  versionLookupResult : Except String Unit
  storageValidationResult : Except String Unit
  secretLookupResult : Except String Unit
  strictVersionLookupResult : Except String Unit
  versionDeprecated : Bool
  versionSpecsResult : Except String Unit
  monitorValidationResult : Except String Unit


/-- Embeds the `strictValidation` block (validator.go lines 203-225): secret
existence when a database secret is named, then a second version-catalog
lookup, the `deprecated` flag, and the catalog entry's own spec validation. -/
def strictValidationChecks (spec : PostgresSpec) (env : ValidateEnv) : Option PostgresError :=
  match spec.databaseSecret, env.secretLookupResult with
  | some _, .error m => some (.secretLookupFailed m)
  | _, _ =>
    match env.strictVersionLookupResult with
    | .error m => some (.versionLookupFailed m)
    | .ok _ =>
      if env.versionDeprecated then some .deprecatedVersion
      else
        match env.versionSpecsResult with
        | .error m => some (.invalidVersionSpecs m)
        | .ok _ => none

/-- Embeds the leader-election timing checks (validator.go lines 229-246).
The Go comparison `time.Duration(renew) <= time.Duration(1.2*float64(retry))`
multiplies by the float JitterFactor 1.2 and truncates; it is modelled here as
the exact rational 6/5 with truncating division, which agrees with the float
computation on every magnitude an int32 seconds field can hold. -/
def leaderElectionChecks (lec : LeaderElectionConfig) : Option PostgresError :=
  if lec.leaseDurationSeconds ≤ lec.renewDeadlineSeconds then
    some .leaseDurationNotGreaterThanRenewDeadline
  else if lec.renewDeadlineSeconds ≤ Int.tdiv (6 * lec.retryPeriodSeconds) 5 then
    some .renewDeadlineNotGreaterThanRetryJitter
  else if lec.leaseDurationSeconds < 1 then some .leaseDurationNotPositive
  else if lec.renewDeadlineSeconds < 1 then some .renewDeadlineNotPositive
  else if lec.retryPeriodSeconds < 1 then some .retryPeriodNotPositive
  else none

/-! The individual fail-fast checks of `ValidatePostgres` (validator.go lines
147-279), one definition per Go check, in source order. -/

/-- Check: `spec.version` non-empty (line 148). -/
def checkVersionNonEmpty (spec : PostgresSpec) : Option PostgresError :=
  if spec.version = "" then some .versionMissing else none

/-- Check: the version resolves in the catalog (line 151, external lookup). -/
def checkVersionCatalog (env : ValidateEnv) : Option PostgresError :=
  match env.versionLookupResult with
  | .error m => some (.versionLookupFailed m)
  | .ok _ => none

/-- Check: `spec.replicas` non-nil and at least 1 (line 155). -/
def checkReplicas (spec : PostgresSpec) : Option PostgresError :=
  if (match spec.replicas with
      | none => true
      | some r => decide (r < 1)) then some .invalidReplicas else none

/-- Check: no deny-listed environment variable name in the pod template (line
159; the external `amv.ValidateEnvVar` embedded per the spec: reject when a
deny-listed name appears). -/
def checkPodEnv (spec : PostgresSpec) : Option PostgresError :=
  if spec.podEnv.any (fun e => forbiddenEnvVars.contains e.name) then
    some .forbiddenEnvVarUsed
  else none

/-- Check: `spec.storageType` non-empty (line 163). -/
def checkStorageTypeNonEmpty (spec : PostgresSpec) : Option PostgresError :=
  if spec.storageType = .unspecified then some .storageTypeMissing else none

/-- Check: `spec.storageType` is `Durable` or `Ephemeral` (line 166). -/
def checkStorageTypeValue (spec : PostgresSpec) : Option PostgresError :=
  if spec.storageType ≠ .durable ∧ spec.storageType ≠ .ephemeral then
    some .storageTypeInvalid
  else none

/-- Check: the storage request validates (line 169, external). -/
def checkStorage (env : ValidateEnv) : Option PostgresError :=
  match env.storageValidationResult with
  | .error m => some (.storageInvalid m)
  | .ok _ => none

/-- Check: a set standby mode is one of the enumerated values (lines 173-181). -/
def checkStandbyMode (spec : PostgresSpec) : Option PostgresError :=
  if (match spec.standbyMode with
      | none => false
      | some m => decide (m ≠ HotPostgresStandbyMode ∧ m ≠ WarmPostgresStandbyMode ∧
          m ≠ DeprecatedHotStandby ∧ m ≠ DeprecatedWarmStandby)) then
    some .invalidStandbyMode
  else none

/-- Check: a set streaming mode is one of the enumerated values (lines 183-191). -/
def checkStreamingMode (spec : PostgresSpec) : Option PostgresError :=
  if (match spec.streamingMode with
      | none => false
      | some m => decide (m ≠ AsynchronousPostgresStreamingMode ∧
          m ≠ SynchronousPostgresStreamingMode ∧ m ≠ DeprecatedAsynchronousStreaming)) then
    some .invalidStreamingMode
  else none

/-- Check: a present archiver storage names at least one provider (lines
193-200). -/
def checkArchiverProvider (spec : PostgresSpec) : Option PostgresError :=
  if (match spec.archiver with
      | none => false
      | some a =>
        match a.storage with
        | none => false
        | some st => decide (st.s3 = false ∧ st.gcs = false ∧ st.azure = false ∧
            st.swift = false ∧ st.localProvider = false)) then
    some .noStorageProviderConfigured
  else none

/-- Check: the strict-validation block, active only when requested (lines
203-225). -/
def checkStrictBlock (spec : PostgresSpec) (env : ValidateEnv)
    (strictValidation : Bool) : Option PostgresError :=
  if strictValidation then strictValidationChecks spec env else none

/-- Check: leader-election timing invariants when configured (lines 229-246). -/
def checkLeaderElection (spec : PostgresSpec) : Option PostgresError :=
  match spec.leaderElection with
  | none => none
  | some lec => leaderElectionChecks lec

/-- Check: a Stash restore init source requires a database secret (lines
249-254). -/
def checkStashRestoreSecret (spec : PostgresSpec) : Option PostgresError :=
  if (match spec.init with
      | none => false
      | some ini => decide (ini.stashRestoreSession ≠ none)) &&
      decide (spec.databaseSecret = none) then
    some .stashRestoreWithoutDatabaseSecret
  else none

/-- Check: a WAL init source names at least one provider (lines 256-261). -/
def checkWALProvider (spec : PostgresSpec) : Option PostgresError :=
  if (match spec.init with
      | none => false
      | some ini =>
        match ini.postgresWAL with
        | none => false
        | some wal => decide (wal.s3 = false ∧ wal.gcs = false ∧ wal.azure = false ∧
            wal.swift = false ∧ wal.localProvider = false)) then
    some .noWALStorageProviderConfigured
  else none

/-- Check: `spec.terminationPolicy` non-empty (line 263). -/
def checkTerminationPolicyNonEmpty (spec : PostgresSpec) : Option PostgresError :=
  if spec.terminationPolicy = .unspecified then some .terminationPolicyMissing else none

/-- Check: `Halt` cannot be used with `Ephemeral` storage (lines 267-269). -/
def checkEphemeralHalt (spec : PostgresSpec) : Option PostgresError :=
  if spec.storageType = .ephemeral ∧ spec.terminationPolicy = .halt then
    some .ephemeralHaltConflict
  else none

/-- Check: a present monitor spec validates (lines 271-276, external). -/
def checkMonitor (spec : PostgresSpec) (env : ValidateEnv) : Option PostgresError :=
  match spec.monitor with
  | none => none
  | some _ =>
    match env.monitorValidationResult with
    | .error m => some (.invalidMonitorSpec m)
    | .ok _ => none

/-- The checks of `ValidatePostgres` in Go source order. -/
def ValidatePostgresChecks (spec : PostgresSpec) (env : ValidateEnv)
    (strictValidation : Bool) : List (Option PostgresError) :=
  [checkVersionNonEmpty spec,
   checkVersionCatalog env,
   checkReplicas spec,
   checkPodEnv spec,
   checkStorageTypeNonEmpty spec,
   checkStorageTypeValue spec,
   checkStorage env,
   checkStandbyMode spec,
   checkStreamingMode spec,
   checkArchiverProvider spec,
   checkStrictBlock spec env strictValidation,
   checkLeaderElection spec,
   checkStashRestoreSecret spec,
   checkWALProvider spec,
   checkTerminationPolicyNonEmpty spec,
   checkEphemeralHalt spec,
   checkMonitor spec env]

/-- Embeds `ValidatePostgres` (validator.go lines 147-279): the checks run in
source order and the first failure is returned (Go's early `return err`), `nil`
when all pass. -/
def ValidatePostgres (spec : PostgresSpec) (env : ValidateEnv)
    (strictValidation : Bool) : Option PostgresError :=
  (ValidatePostgresChecks spec env strictValidation).findSome? id

theorem findSome_id_eq_none {α : Type} {l : List (Option α)}
    (h : l.findSome? id = none) : ∀ x ∈ l, x = none := by
  induction l with
  | nil => intro x hx; cases hx
  | cons a as ih =>
    intro x hx
    rw [List.findSome?_cons] at h
    match a, h with
    | none, h =>
      rcases List.mem_cons.mp hx with rfl | hx
      · rfl
      · exact ih h x hx
    | some b, h => cases h

theorem mem_of_findSome_id_eq_some {α : Type} {l : List (Option α)} {a : α}
    (h : l.findSome? id = some a) : some a ∈ l := by
  induction l with
  | nil => cases h
  | cons b bs ih =>
    rw [List.findSome?_cons] at h
    match b, h with
    | none, h => exact List.mem_cons_of_mem _ (ih h)
    | some c, h =>
      cases h
      exact List.mem_cons_self _ _

theorem strictValidationChecks_ne_ephemeralHaltConflict (spec : PostgresSpec)
    (env : ValidateEnv) : strictValidationChecks spec env ≠ some .ephemeralHaltConflict := by
  unfold strictValidationChecks
  intro h
  repeat' split at h
  all_goals simp_all

theorem leaderElectionChecks_ne_ephemeralHaltConflict (lec : LeaderElectionConfig) :
    leaderElectionChecks lec ≠ some .ephemeralHaltConflict := by
  unfold leaderElectionChecks
  intro h
  repeat' split at h
  all_goals simp_all

theorem checkStrictBlock_ne_ephemeralHaltConflict (spec : PostgresSpec)
    (env : ValidateEnv) (strictValidation : Bool) :
    checkStrictBlock spec env strictValidation ≠ some .ephemeralHaltConflict := by
  unfold checkStrictBlock
  split
  · exact strictValidationChecks_ne_ephemeralHaltConflict spec env
  · simp

theorem checkLeaderElection_ne_ephemeralHaltConflict (spec : PostgresSpec) :
    checkLeaderElection spec ≠ some .ephemeralHaltConflict := by
  unfold checkLeaderElection
  split
  · simp
  · exact leaderElectionChecks_ne_ephemeralHaltConflict _

/-- C7: every spec with `storageType == Ephemeral` and
`terminationPolicy == Halt` is rejected by the validator, whatever the external
lookups return and whether or not validation is strict; the identical spec with
`terminationPolicy == Delete` is never rejected by this particular
(ephemeral-halt) check. -/
theorem ephemeral_halt_rejected (spec : PostgresSpec) (env : ValidateEnv)
    (strictValidation : Bool)
    (hst : spec.storageType = .ephemeral) (htp : spec.terminationPolicy = .halt) :
    ValidatePostgres spec env strictValidation ≠ none ∧
      ValidatePostgres { spec with terminationPolicy := .delete } env strictValidation ≠
        some .ephemeralHaltConflict := by
  constructor
  · intro h
    have hall := findSome_id_eq_none (l := ValidatePostgresChecks spec env strictValidation) h
    have heph := hall (checkEphemeralHalt spec) (by simp [ValidatePostgresChecks])
    simp [checkEphemeralHalt, hst, htp] at heph
  · intro h
    have hmem := mem_of_findSome_id_eq_some
      (l := ValidatePostgresChecks { spec with terminationPolicy := .delete } env strictValidation) h
    simp only [ValidatePostgresChecks, List.mem_cons, List.not_mem_nil, or_false] at hmem
    rcases hmem with h | h | h | h | h | h | h | h | h | h | h | h | h | h | h | h | h
    · unfold checkVersionNonEmpty at h; split at h <;> simp_all
    · unfold checkVersionCatalog at h; split at h <;> simp_all
    · unfold checkReplicas at h; split at h <;> simp_all
    · unfold checkPodEnv at h; split at h <;> simp_all
    · unfold checkStorageTypeNonEmpty at h; split at h <;> simp_all
    · unfold checkStorageTypeValue at h; split at h <;> simp_all
    · unfold checkStorage at h; split at h <;> simp_all
    · unfold checkStandbyMode at h; split at h <;> simp_all
    · unfold checkStreamingMode at h; split at h <;> simp_all
    · unfold checkArchiverProvider at h; split at h <;> simp_all
    · exact checkStrictBlock_ne_ephemeralHaltConflict _ _ _ h.symm
    · exact checkLeaderElection_ne_ephemeralHaltConflict _ h.symm
    · unfold checkStashRestoreSecret at h; split at h <;> simp_all
    · unfold checkWALProvider at h; split at h <;> simp_all
    · unfold checkTerminationPolicyNonEmpty at h; split at h <;> simp_all
    · unfold checkEphemeralHalt at h; split at h <;> simp_all
    · unfold checkMonitor at h; repeat' split at h
      all_goals simp_all

/-- A concrete spec that is valid except for combining ephemeral storage with
the halt policy. -/
def ephemeralHaltSpec : PostgresSpec :=
  { version := "11.1"
    replicas := some 1
    podEnv := []
    storageType := .ephemeral
    storage := none
    standbyMode := none
    streamingMode := none
    archiver := none
    databaseSecret := none
    leaderElection := none
    init := none
    terminationPolicy := .halt
    monitor := none }

/-- An environment in which every external validation succeeds. -/
def validateEnvAllOk : ValidateEnv :=
  ⟨.ok (), .ok (), .ok (), .ok (), false, .ok (), .ok ()⟩

/-- C7 witness: the concrete ephemeral+halt spec is rejected, and with `Delete`
it is not rejected by the ephemeral-halt check. -/
theorem ephemeral_halt_rejected_witness :
    ValidatePostgres ephemeralHaltSpec validateEnvAllOk false ≠ none ∧
      ValidatePostgres { ephemeralHaltSpec with terminationPolicy := .delete }
        validateEnvAllOk false ≠ some .ephemeralHaltConflict :=
  ephemeral_halt_rejected ephemeralHaltSpec validateEnvAllOk false rfl rfl

/-! ## Update precondition check (source: validator.go lines 117-135, 281-327) -/

/-- A Postgres object as the admission hook sees it: the identity keys the
precondition set protects plus the spec. -/
structure PostgresObject where
  apiVersion : String
  kind : String
  name : String
  metaNamespace : String
  spec : PostgresSpec
deriving DecidableEq, Repr

/-- Modelled from the spec: the precondition set of `getPreconditionFunc` and
`preconditionSpecFields` (validator.go lines 293-317) under the structural-diff
semantics of the vendored `meta_util.CreateStrategicPatch` — "a precondition
set that forbids changes to: apiVersion, kind, metadata.name,
metadata.namespace, and a fixed list of spec sub-paths — standby, streaming,
archiver, databaseSecret, storageType, storage, init".  The precondition is
violated exactly when one of those keys differs between old and new. -/
def preconditionViolated (oldObj newObj : PostgresObject) : Bool :=
  decide (oldObj.apiVersion ≠ newObj.apiVersion ∨
    oldObj.kind ≠ newObj.kind ∨
    oldObj.name ≠ newObj.name ∨
    oldObj.metaNamespace ≠ newObj.metaNamespace ∨
    oldObj.spec.standbyMode ≠ newObj.spec.standbyMode ∨
    oldObj.spec.streamingMode ≠ newObj.spec.streamingMode ∨
    oldObj.spec.archiver ≠ newObj.spec.archiver ∨
    oldObj.spec.databaseSecret ≠ newObj.spec.databaseSecret ∨
    oldObj.spec.storageType ≠ newObj.spec.storageType ∨
    oldObj.spec.storage ≠ newObj.spec.storage ∨
    oldObj.spec.init ≠ newObj.spec.init)

/-- Embeds `validateUpdate` (validator.go lines 281-291): the strategic patch
fails iff a protected key changed; the error names the full protected list. -/
def validateUpdate (newObj oldObj : PostgresObject) : Option String :=
  if preconditionViolated oldObj newObj then
    some "precondition failed: at least one protected field was changed"
  else none

/-- Embeds the update branch of `PostgresValidator.Admit` (validator.go lines
117-135): before diffing, when the old object has no database secret it is
pre-assigned the new object's database secret (first-time secret assignment is
legal); returns whether the precondition stage accepts the update.
(`SetDefaults`, vendored outside src, is the identity on already-defaulted
objects and is elided.) -/
def admitUpdatePrecondition (newObj oldObj : PostgresObject) : Bool :=
  let oldObj :=
    if oldObj.spec.databaseSecret = none then
      { oldObj with spec := { oldObj.spec with databaseSecret := newObj.spec.databaseSecret } }
    else oldObj
  (validateUpdate newObj oldObj).isNone

/-- C4: the update precondition check rejects every update that changes
`spec.storageType` (whatever else is equal), and accepts an update whose only
change is setting `spec.databaseSecret` when the old value was unset. -/
theorem update_precondition_storage_and_secret (oldObj newObj : PostgresObject) :
    (oldObj.spec.storageType ≠ newObj.spec.storageType →
      admitUpdatePrecondition newObj oldObj = false) ∧
    (oldObj.spec.databaseSecret = none → ∀ s : String,
      admitUpdatePrecondition
        { oldObj with spec := { oldObj.spec with databaseSecret := some s } } oldObj = true) := by
  constructor
  · intro h
    by_cases hdb : oldObj.spec.databaseSecret = none <;>
      simp [admitUpdatePrecondition, validateUpdate, preconditionViolated, hdb, h]
  · intro hdb s
    simp [admitUpdatePrecondition, validateUpdate, preconditionViolated, hdb]

/-- A concrete old object with no database secret yet. -/
def secretlessPostgres : PostgresObject :=
  { apiVersion := "kubedb.com/v1alpha1"
    kind := "Postgres"
    name := "pg"
    metaNamespace := "demo"
    spec :=
      { version := "11.1"
        replicas := some 1
        podEnv := []
        storageType := .durable
        storage := some "1Gi"
        standbyMode := none
        streamingMode := none
        archiver := none
        databaseSecret := none
        leaderElection := none
        init := none
        terminationPolicy := .delete
        monitor := none } }

/-- C4 witness: adding a first database secret to the concrete object passes
the precondition stage. -/
theorem update_precondition_storage_and_secret_witness :
    admitUpdatePrecondition
      { secretlessPostgres with
          spec := { secretlessPostgres.spec with databaseSecret := some "pg-auth" } }
      secretlessPostgres = true :=
  (update_precondition_storage_and_secret secretlessPostgres secretlessPostgres).2 rfl "pg-auth"

/-! ## Admission delete path (source: validator.go lines 101-111) -/

/-- The admission verdicts the delete path can produce. -/
inductive AdmissionVerdict
  | allowed
  | badRequest
  | internalServerError
deriving DecidableEq, Repr

/-- Result of reading the target object back from the store (the raw object is
nil on delete, so the hook performs a Get). -/
inductive StoreLookup
  | found (terminationPolicy : TerminationPolicy)
  | notFound
  | lookupFailure (msg : String)
deriving DecidableEq, Repr

/-- Embeds the Delete branch of `PostgresValidator.Admit` (validator.go lines
101-111): with no request name the delete is allowed without a lookup; a
lookup failure other than not-found yields InternalServerError; an existing
object whose policy is `DoNotTerminate` yields BadRequest; otherwise —
including the not-found case — the delete is allowed. -/
def admitDelete (name : String) (lookup : StoreLookup) : AdmissionVerdict :=
  if name ≠ "" then
    match lookup with
    | .lookupFailure _ => .internalServerError
    | .found policy => if policy = .doNotTerminate then .badRequest else .allowed
    | .notFound => .allowed
  else .allowed

/-- C10: the delete path allows a nameless request and a not-found object;
it answers BadRequest exactly when the named object exists with policy
`DoNotTerminate`; and a lookup failure other than not-found on a named request
yields InternalServerError. -/
theorem admit_delete_path (name : String) (lookup : StoreLookup) :
    (name = "" → admitDelete name lookup = .allowed) ∧
    (admitDelete name .notFound = .allowed) ∧
    (∀ policy : TerminationPolicy,
      admitDelete name (.found policy) = .badRequest ↔
        (name ≠ "" ∧ policy = .doNotTerminate)) ∧
    (∀ msg : String, name ≠ "" →
      admitDelete name (.lookupFailure msg) = .internalServerError) := by
  refine ⟨fun h => by simp [admitDelete, h], ?_, fun policy => ?_,
    fun msg hm => by simp [admitDelete, hm]⟩
  · by_cases h : name = "" <;> simp [admitDelete, h]
  · by_cases h : name = "" <;> by_cases hp : policy = .doNotTerminate <;>
      simp [admitDelete, h, hp]

/-- C10 witness: deleting an existing object named "pg" under `DoNotTerminate`
is rejected as BadRequest. -/
theorem admit_delete_path_witness :
    admitDelete "pg" (.found .doNotTerminate) = .badRequest :=
  ((admit_delete_path "pg" (.found .doNotTerminate)).2.2.1 .doNotTerminate).mpr
    ⟨by decide, rfl⟩
